import Mathlib

/-!
Shallow embedding of `src/Deaf_helper.py` (the `DeafHelperApp` Kivy
application).  The mutable attributes of the single `DeafHelperApp` object
are modelled as a record `St`; each Python method becomes a Lean function
from `St` (plus the external inputs the method consumes: captured frame,
OCR result, recognition outcome, wall-clock timestamp string) to a
`PyResult St`, where `PyResult.exn` records an uncaught Python exception
propagating out of the method.  `Option` on a field encodes a Python
attribute or widget that may not have been assigned yet: reading it while
it is `none` raises `AttributeError`.
-/

namespace DeafHelper

/-- Outcome of executing a Python method: a normal return value, or an
uncaught exception propagating to the caller (which, from `__init__` or
`build`, terminates the process). -/
inductive PyResult (α : Type) where
  | ok (a : α)
  | exn (msg : String)
deriving DecidableEq, Repr

/-- A record written through the module-level `logger`, tagged with its
level.  Entries written to `self.result_label` are modelled separately
(they are the user-visible messages). -/
inductive LogEvent where
  | info (msg : String)
  | debug (msg : String)
  | warn (msg : String)
  | error (msg : String)
deriving DecidableEq, Repr

/-- The mutable attributes of the `DeafHelperApp` instance that the claims
touch.  `resultLabel`/`audioBtnText` are `none` until `build` creates the
corresponding widgets; `cameraIndex` is `none` until some branch of
`load_config` assigns `self.camera_index`; `cameraOpen` is `none` while
`self.camera` is `None`, and `some b` once a `VideoCapture` object with
`isOpened = b` is stored.  `notes` is the sequence of lines appended to
the notes file; `displayedFrame` is the frame id last blitted to the
`camera_image` texture. -/
structure St where
  running : Bool
  language : String
  notesFile : String
  ttsEnabled : Bool
  cameraIndex : Option Int
  resultLabel : Option String
  audioBtnText : Option String
  cameraOpen : Option Bool
  notes : List String
  displayedFrame : Option Nat
deriving DecidableEq, Repr

/-- `DEFAULT_CONFIG["camera_index"]`. -/
def DEFAULT_camera_index : Int := 0

/-- `DEFAULT_CONFIG["language"]`. -/
def DEFAULT_language : String := "am-ET"

/-- `DEFAULT_CONFIG["notes_file"]`. -/
def DEFAULT_notes_file : String := "notes.txt"

/-- `DEFAULT_CONFIG["tts_enabled"]`. -/
def DEFAULT_tts_enabled : Bool := false

/-- A parsed `config.json` document: each recognized key may be present or
absent (`config.get(key, default)` falls back on absence). -/
structure ConfigDoc where
  camera_index : Option Int
  language : Option String
  notes_file : Option String
  tts_enabled : Option Bool
deriving DecidableEq, Repr

/-- The document `json.dump(DEFAULT_CONFIG, f, indent=4)` writes: all four
default fields. -/
def defaultConfigDoc : ConfigDoc :=
  { camera_index := some DEFAULT_camera_index
    language := some DEFAULT_language
    notes_file := some DEFAULT_notes_file
    tts_enabled := some DEFAULT_tts_enabled }

/-- The state of `config.json` on disk as `load_config` observes it:
absent, present but failing to open or parse, or present and parsing to a
document. -/
inductive FileState where
  | absent
  | invalid
  | valid (doc : ConfigDoc)

/-- App state right after lines 67-73 of `__init__` and before the
`self.load_config()` call: the three defaulted fields are assigned, but
`self.camera_index` is not, no widget exists, `self.camera = None`,
`self.running = False`. -/
def initSt : St :=
  { running := false
    language := DEFAULT_language
    notesFile := DEFAULT_notes_file
    ttsEnabled := DEFAULT_tts_enabled
    cameraIndex := none
    resultLabel := none
    audioBtnText := none
    cameraOpen := none
    notes := []
    displayedFrame := none }

/-- `self.result_label.text = msg`: raises `AttributeError` when the
widget has not been created yet (it is created only inside `build`,
after `load_config` and `start_camera` have already run). -/
def setResultLabel (s : St) (msg : String) : PyResult St :=
  match s.resultLabel with
  | none => PyResult.exn "AttributeError: result_label"
  | some _ => PyResult.ok { s with resultLabel := some msg }

/-- `load_config` (lines 77-94).  On a valid document, each field is
`config.get(key, DEFAULT_CONFIG[key])` and `self.camera_index` gets
assigned; on an absent file, the default document is written to disk
(second component of the result) and no attribute is touched — in
particular `self.camera_index` stays unassigned; on a read/parse failure
the `except` handler logs and then assigns `self.result_label.text`,
which at the only call site (`__init__`) does not exist yet. -/
def load_config (fs : FileState) (s : St) : PyResult (St × Option ConfigDoc) :=
  match fs with
  | FileState.valid doc =>
      PyResult.ok
        ({ s with
            language := doc.language.getD DEFAULT_language
            notesFile := doc.notes_file.getD DEFAULT_notes_file
            ttsEnabled := doc.tts_enabled.getD DEFAULT_tts_enabled
            cameraIndex := some (doc.camera_index.getD DEFAULT_camera_index) },
          none)
  | FileState.absent =>
      PyResult.ok (s, some defaultConfigDoc)
  | FileState.invalid =>
      match setResultLabel s "Config Error: parse failure" with
      | PyResult.exn e => PyResult.exn e
      | PyResult.ok s₁ => PyResult.ok (s₁, none)

/-- `start_camera` (lines 162-171), parameterized by which camera indices
have an available device.  Reading `self.camera_index` when it was never
assigned raises `AttributeError` inside the `try`, which the handler
turns into a `result_label` write; an unavailable device raises
`ValueError("Camera not available")` after `self.camera` has been set to
the unopened capture object. -/
def start_camera (avail : Int → Bool) (s : St) : PyResult St :=
  match s.cameraIndex with
  | none => setResultLabel s "Camera Error: AttributeError"
  | some idx =>
      if avail idx then PyResult.ok { s with cameraOpen := some true }
      else
        setResultLabel { s with cameraOpen := some false }
          "Camera Error: Camera not available"

/-- `build` (lines 106-155): sets `self.running = True`, runs
`start_camera` (line 122) before the `result_label` widget is created
(line 125), then creates `result_label` (empty text) and the audio button
with label `"Start Audio"` (no leading space). -/
def build (avail : Int → Bool) (s : St) : PyResult St :=
  let s₁ := { s with running := true }
  match start_camera avail s₁ with
  | PyResult.exn e => PyResult.exn e
  | PyResult.ok s₂ =>
      PyResult.ok { s₂ with resultLabel := some "", audioBtnText := some "Start Audio" }

/-- `toggle_audio` (lines 205-212): branches on whether the button label
equals `" Start Audio"` — with a leading space. -/
def toggle_audio (s : St) : PyResult St :=
  match s.audioBtnText with
  | none => PyResult.exn "AttributeError: audio_btn"
  | some t =>
      if t = " Start Audio" then
        PyResult.ok { s with audioBtnText := some " Stop Audio", running := true }
      else
        PyResult.ok { s with audioBtnText := some " Start Audio", running := false }

/-- `stop_app` (lines 268-274): clears the running flag and releases the
camera (the capture object remains assigned but is no longer opened). -/
def stop_app (s : St) : St :=
  { s with running := false, cameraOpen := s.cameraOpen.map fun _ => false }

/-- The line `save_note` appends for one event:
`f"[\x7btimestamp\x7d] \x7bsource\x7d: \x7btext\x7d"` plus the trailing
newline implied by one line per event.  The timestamp string is
`datetime.now().strftime("%Y-%m-%d %H:%M:%S")`, passed in as an opaque
input. -/
def noteLine (timestamp source text : String) : String :=
  "[" ++ timestamp ++ "] " ++ source ++ ": " ++ text

/-- `save_note` (lines 257-266), successful-write path: opens the notes
file in append mode and writes exactly one line. -/
def save_note (timestamp source text : String) (s : St) : St :=
  { s with notes := s.notes ++ [noteLine timestamp source text] }

/-- Line 184: `lang_code = "amh" if self.language == "am-ET" else "eng"`. -/
def tessLang (language : String) : String :=
  if language = "am-ET" then "amh" else "eng"

/-- Lines 188 and 227: the new `result_label` text is the source label,
a newline, the new text, a blank line, then the first 200 characters of
the previous `result_label` text (`self.result_label.text[:200]`). -/
def prependResult (label text prev : String) : String :=
  label ++ "\n" ++ text ++ "\n\n" ++ prev.take 200

/-- Python `str.strip()` with no argument: remove whitespace characters
from both ends of the string.  (Defined over the character list so it is
structurally recursive and evaluates inside the kernel.) -/
def pyStrip (s : String) : String :=
  String.mk (((s.data.dropWhile Char.isWhitespace).reverse.dropWhile
    Char.isWhitespace).reverse)

/-- Result of `self.camera.read()` on one tick: `ret = False`, or a
captured frame identified by a number. -/
inductive Capture where
  | fail
  | frame (img : Nat)
deriving DecidableEq, Repr

/-- `update_camera` (lines 173-198), one timer tick.  `ocr lang img` is
the string `pytesseract.image_to_string(frame, lang=lang)` returns for
frame `img`; Python `.strip()` is modelled by `pyStrip`.  The method
returns immediately when the running flag is false or `self.camera` is
`None`; on a failed read it logs a warning and returns; otherwise a
non-empty trimmed text is saved and prepended to the result label, and in
every captured-frame case the frame is blitted to the image widget. -/
def update_camera (cap : Capture) (ocr : String → Nat → String)
    (timestamp : String) (s : St) : PyResult St :=
  if s.running = false then PyResult.ok s
  else if s.cameraOpen = none then PyResult.ok s
  else
    match cap with
    | Capture.fail => PyResult.ok s
    | Capture.frame img =>
        let text := pyStrip (ocr (tessLang s.language) img)
        let afterText : PyResult St :=
          if text = "" then PyResult.ok s
          else
            let sA := save_note timestamp "Camera" text s
            match sA.resultLabel with
            | none => PyResult.exn "AttributeError: result_label"
            | some prev =>
                PyResult.ok
                  { sA with resultLabel := some (prependResult "Camera Text:" text prev) }
        match afterText with
        | PyResult.exn e => PyResult.exn e
        | PyResult.ok s₁ => PyResult.ok { s₁ with displayedFrame := some img }

/-- Outcome of one microphone-plus-recognition attempt inside
`audio_loop`: a transcript from `recognize_google`, an
`sr.UnknownValueError`, an `sr.RequestError`, or any other exception. -/
inductive AudioOutcome where
  | success (text : String)
  | unknownValue
  | requestError (msg : String)
  | otherError (msg : String)
deriving DecidableEq, Repr

/-- What one pass of the `while True` body did: slept 0.1s because the
running flag was false, or completed an attempt and continues with the
next iteration. -/
inductive IterAction where
  | slept
  | looped
deriving DecidableEq, Repr

/-- One iteration of the `audio_loop` body (lines 216-238).  When the
running flag is false the body sleeps and re-checks.  A successful
non-empty transcript is saved and prepended to the result label (the TTS
playback is an external side effect with no app-state change);
`UnknownValueError` only logs at debug level; `RequestError` and any
other exception log at error level and write a visible
`"Audio Error: ..."` message into the result label. -/
def audio_loop_iter (outcome : AudioOutcome) (timestamp : String) (s : St) :
    PyResult (St × IterAction × List LogEvent) :=
  if s.running = false then PyResult.ok (s, IterAction.slept, [])
  else
    match outcome with
    | AudioOutcome.success text =>
        if text = "" then
          PyResult.ok (s, IterAction.looped,
            [LogEvent.info ("Audio recognition successful: " ++ text)])
        else
          let sA := save_note timestamp "Audio" text s
          match sA.resultLabel with
          | none => PyResult.exn "AttributeError: result_label"
          | some prev =>
              PyResult.ok
                ({ sA with resultLabel := some (prependResult "Audio Text:" text prev) },
                  IterAction.looped,
                  [LogEvent.info ("Audio recognition successful: " ++ text)])
    | AudioOutcome.unknownValue =>
        PyResult.ok (s, IterAction.looped, [LogEvent.debug "Audio not understood"])
    | AudioOutcome.requestError msg =>
        match setResultLabel s ("Audio Error: " ++ msg) with
        | PyResult.exn e => PyResult.exn e
        | PyResult.ok s₁ =>
            PyResult.ok (s₁, IterAction.looped,
              [LogEvent.error ("Audio API error: " ++ msg)])
    | AudioOutcome.otherError msg =>
        match setResultLabel s ("Audio Error: " ++ msg) with
        | PyResult.exn e => PyResult.exn e
        | PyResult.ok s₁ =>
            PyResult.ok (s₁, IterAction.looped,
              [LogEvent.error ("Audio loop error: " ++ msg)])

/-- App state after a successful `__init__` with a fully valid default
`config.json` on disk: like `initSt` but with `self.camera_index`
assigned to 0. -/
def readySt : St := { initSt with cameraIndex := some DEFAULT_camera_index }

/-- App state after a successful `build` from `readySt` with the camera
available: running flag true, camera opened, empty result label, audio
button labelled `"Start Audio"`. -/
def liveSt : St :=
  { readySt with
      running := true
      cameraOpen := some true
      resultLabel := some ""
      audioBtnText := some "Start Audio" }

/-- Like `liveSt` but with the running flag cleared (as the first press
of the audio toggle leaves it). -/
def pausedSt : St := { liveSt with running := false }

/-- Claim C1: for every RecognitionEvent emitted by either pipeline
(non-empty recognized text with source Camera or Audio), the output sink
appends exactly one line to the NotesLog of the form
`[timestamp] Camera: text` / `[timestamp] Audio: text`, and the
ResultsBuffer's newest entry contains that event's text under its
source-specific label. -/
theorem event_logged_once_and_buffered
    (s : St) (ocr : String → Nat → String) (ts prev : String) (img : Nat)
    (t aText : String)
    (hrun : s.running = true) (hcam : s.cameraOpen = some true)
    (hlbl : s.resultLabel = some prev)
    (hocr : pyStrip (ocr (tessLang s.language) img) = t) (ht : t ≠ "")
    (ha : aText ≠ "") :
    update_camera (Capture.frame img) ocr ts s =
      PyResult.ok { s with
        notes := s.notes ++ [noteLine ts "Camera" t]
        resultLabel := some (prependResult "Camera Text:" t prev)
        displayedFrame := some img } ∧
    audio_loop_iter (AudioOutcome.success aText) ts s =
      PyResult.ok ({ s with
          notes := s.notes ++ [noteLine ts "Audio" aText]
          resultLabel := some (prependResult "Audio Text:" aText prev) },
        IterAction.looped,
        [LogEvent.info ("Audio recognition successful: " ++ aText)]) := by
  subst hocr
  constructor
  · simp [update_camera, save_note, hrun, hcam, hlbl, ht]
  · simp [audio_loop_iter, save_note, hrun, hlbl, ha]

/-- Witness for C1 at a concrete live state and inputs. -/
theorem event_logged_once_and_buffered_witness :
    update_camera (Capture.frame 0) (fun _ _ => "HELLO") "2026-01-01 00:00:00" liveSt =
      PyResult.ok { liveSt with
        notes := liveSt.notes ++ [noteLine "2026-01-01 00:00:00" "Camera" "HELLO"]
        resultLabel := some (prependResult "Camera Text:" "HELLO" "")
        displayedFrame := some 0 } ∧
    audio_loop_iter (AudioOutcome.success "hi") "2026-01-01 00:00:00" liveSt =
      PyResult.ok ({ liveSt with
          notes := liveSt.notes ++ [noteLine "2026-01-01 00:00:00" "Audio" "hi"]
          resultLabel := some (prependResult "Audio Text:" "hi" "") },
        IterAction.looped,
        [LogEvent.info ("Audio recognition successful: " ++ "hi")]) :=
  event_logged_once_and_buffered liveSt (fun _ _ => "HELLO") "2026-01-01 00:00:00" ""
    0 "HELLO" "hi" rfl rfl rfl (by decide) (by decide) (by decide)

/-- Claim C2 (code bug witness): with `config.json` absent, `load_config`
writes the default document to disk, but the returned state still has
`self.camera_index` unassigned — not the default 0 the claim requires —
and the subsequent `build` then dies with an `AttributeError` raised from
`start_camera`'s own error handler. -/
theorem missing_config_omits_camera_index :
    load_config FileState.absent initSt = PyResult.ok (initSt, some defaultConfigDoc) ∧
    initSt.cameraIndex ≠ some DEFAULT_camera_index ∧
    build (fun _ => true) initSt = PyResult.exn "AttributeError: result_label" := by
  decide

/-- Claim C3 (code bug witness): on a configuration document that fails
to read or parse, the `except` handler of `load_config` assigns
`self.result_label.text`, but at its only call site (`__init__`) that
widget does not exist yet, so the handler's `AttributeError` propagates
out of `load_config` and the startup is fatal — no fallback to defaults,
no visible message. -/
theorem invalid_config_fatal :
    load_config FileState.invalid initSt = PyResult.exn "AttributeError: result_label" := by
  decide

/-- Claim C4 (code bug witness): with a valid configuration loaded
(`camera_index = 0`) but no camera device available, `build` terminates
with an `AttributeError`: `start_camera` runs before the `result_label`
widget is created, so its error handler's `self.result_label.text`
assignment raises, the exception escapes `build`, and the process dies
instead of continuing with an inert OCR pipeline. -/
theorem camera_unavailable_fatal :
    readySt.cameraIndex = some 0 ∧
    build (fun _ => false) readySt = PyResult.exn "AttributeError: result_label" := by
  decide

/-- Counterexample to claim C5 as stated: with the running flag false but
the camera open and a frame available whose OCR text is non-empty,
`update_camera` returns immediately — no frame is rendered (the displayed
frame stays `none`) and no note is taken, so the flag does affect the OCR
pipeline. -/
theorem running_flag_gates_ocr_counterexample :
    pausedSt.running = false ∧ pausedSt.cameraOpen = some true ∧
    update_camera (Capture.frame 7) (fun _ _ => "HELLO") "2026-01-01 00:00:00" pausedSt =
      PyResult.ok pausedSt ∧
    pausedSt.displayedFrame ≠ some 7 := by
  decide

/-- Claim C5 as amended: the running flag is read not only by the speech
loop but also by the OCR timer callback (and written by `build` and
`stop_app` as well as the toggle): whenever the flag is false,
`update_camera` returns immediately without capturing, recognizing or
rendering anything, leaving the state unchanged. -/
theorem running_flag_gates_camera (cap : Capture) (ocr : String → Nat → String)
    (ts : String) (s : St) (h : s.running = false) :
    update_camera cap ocr ts s = PyResult.ok s := by
  simp [update_camera, h]

/-- Witness for the amended C5 at a concrete paused state. -/
theorem running_flag_gates_camera_witness :
    update_camera (Capture.frame 7) (fun _ _ => "HELLO") "2026-01-01 00:00:00" pausedSt =
      PyResult.ok pausedSt :=
  running_flag_gates_camera (Capture.frame 7) (fun _ _ => "HELLO")
    "2026-01-01 00:00:00" pausedSt rfl

/-- Claim C6: each record sets the ResultsBuffer to the new
source-labelled block followed by the first 200 characters of the
previously displayed content; with OCR text `HELLO` the newest block is
`Camera Text:` followed by a newline and `HELLO`. -/
theorem record_prepends_truncated_context
    (s : St) (ocr : String → Nat → String) (ts prev : String) (img : Nat) (t : String)
    (hrun : s.running = true) (hcam : s.cameraOpen = some true)
    (hlbl : s.resultLabel = some prev)
    (hocr : pyStrip (ocr (tessLang s.language) img) = t) (ht : t ≠ "") :
    (∃ s₁, update_camera (Capture.frame img) ocr ts s = PyResult.ok s₁ ∧
        s₁.resultLabel = some (prependResult "Camera Text:" t prev)) ∧
    prependResult "Camera Text:" t prev =
      "Camera Text:" ++ "\n" ++ t ++ "\n\n" ++ prev.take 200 ∧
    (t = "HELLO" →
      prependResult "Camera Text:" t prev =
        "Camera Text:\nHELLO" ++ ("\n\n" ++ prev.take 200)) := by
  subst hocr
  have h₁ : update_camera (Capture.frame img) ocr ts s =
      PyResult.ok { s with
        notes := s.notes ++
          [noteLine ts "Camera" (pyStrip (ocr (tessLang s.language) img))]
        resultLabel := some (prependResult "Camera Text:"
          (pyStrip (ocr (tessLang s.language) img)) prev)
        displayedFrame := some img } := by
    simp [update_camera, save_note, hrun, hcam, hlbl, ht]
  refine ⟨⟨_, h₁, rfl⟩, rfl, fun h => ?_⟩
  rw [h]
  show ("Camera Text:" ++ "\n" ++ "HELLO" ++ "\n\n") ++ prev.take 200 =
    "Camera Text:\nHELLO" ++ ("\n\n" ++ prev.take 200)
  rw [show ("Camera Text:" ++ "\n" ++ "HELLO" ++ "\n\n" : String) =
    "Camera Text:\nHELLO" ++ "\n\n" from rfl, String.append_assoc]

/-- Witness for C6 at a concrete live state with OCR text HELLO. -/
theorem record_prepends_truncated_context_witness :
    (∃ s₁, update_camera (Capture.frame 0) (fun _ _ => "HELLO") "2026-01-01 00:00:00" liveSt =
        PyResult.ok s₁ ∧
        s₁.resultLabel = some (prependResult "Camera Text:" "HELLO" "")) ∧
    prependResult "Camera Text:" "HELLO" "" =
      "Camera Text:" ++ "\n" ++ "HELLO" ++ "\n\n" ++ String.take "" 200 ∧
    ("HELLO" = "HELLO" →
      prependResult "Camera Text:" "HELLO" "" =
        "Camera Text:\nHELLO" ++ ("\n\n" ++ String.take "" 200)) :=
  record_prepends_truncated_context liveSt (fun _ _ => "HELLO") "2026-01-01 00:00:00" ""
    0 "HELLO" rfl rfl rfl (by decide) (by decide)

/-- Claim C7: an OCR capture whose recognized text trims to the empty
string produces no event and leaves the notes unchanged, but the
displayed camera frame is still updated on that tick. -/
theorem empty_trimmed_text_no_event
    (s : St) (ocr : String → Nat → String) (ts : String) (img : Nat) (b : Bool)
    (hrun : s.running = true) (hcam : s.cameraOpen = some b)
    (hocr : pyStrip (ocr (tessLang s.language) img) = "") :
    update_camera (Capture.frame img) ocr ts s =
      PyResult.ok { s with displayedFrame := some img } := by
  simp [update_camera, hrun, hcam, hocr]

/-- Witness for C7: whitespace-only OCR output at a concrete live state. -/
theorem empty_trimmed_text_no_event_witness :
    update_camera (Capture.frame 3) (fun _ _ => "  \n ") "2026-01-01 00:00:00" liveSt =
      PyResult.ok { liveSt with displayedFrame := some 3 } :=
  empty_trimmed_text_no_event liveSt (fun _ _ => "  \n ") "2026-01-01 00:00:00" 3
    true rfl rfl (by decide)

/-- Claim C8: when speech recognition raises the not-understood error,
the loop continues to its next iteration with the state untouched — no
event, no notes line, no visible error message — and only a debug-level
log entry is made. -/
theorem unknown_value_silent (s : St) (ts : String) (hrun : s.running = true) :
    audio_loop_iter AudioOutcome.unknownValue ts s =
      PyResult.ok (s, IterAction.looped, [LogEvent.debug "Audio not understood"]) := by
  simp [audio_loop_iter, hrun]

/-- Witness for C8 at a concrete live state. -/
theorem unknown_value_silent_witness :
    audio_loop_iter AudioOutcome.unknownValue "2026-01-01 00:00:00" liveSt =
      PyResult.ok (liveSt, IterAction.looped, [LogEvent.debug "Audio not understood"]) :=
  unknown_value_silent liveSt "2026-01-01 00:00:00" rfl

/-- Claim C9: when speech recognition raises a remote service error, a
visible error message is written into the result label, no event is
emitted and no notes line is written, and the loop continues with its
next iteration. -/
theorem request_error_visible (s : St) (ts msg prev : String)
    (hrun : s.running = true) (hlbl : s.resultLabel = some prev) :
    audio_loop_iter (AudioOutcome.requestError msg) ts s =
      PyResult.ok ({ s with resultLabel := some ("Audio Error: " ++ msg) },
        IterAction.looped, [LogEvent.error ("Audio API error: " ++ msg)]) ∧
    ({ s with resultLabel := some ("Audio Error: " ++ msg) } : St).notes = s.notes := by
  constructor
  · simp [audio_loop_iter, setResultLabel, hrun, hlbl]
  · rfl

/-- Witness for C9 at a concrete live state. -/
theorem request_error_visible_witness :
    audio_loop_iter (AudioOutcome.requestError "quota") "2026-01-01 00:00:00" liveSt =
      PyResult.ok ({ liveSt with resultLabel := some ("Audio Error: " ++ "quota") },
        IterAction.looped, [LogEvent.error ("Audio API error: " ++ "quota")]) ∧
    ({ liveSt with resultLabel := some ("Audio Error: " ++ "quota") } : St).notes =
      liveSt.notes :=
  request_error_visible liveSt "2026-01-01 00:00:00" "quota" "" rfl rfl

/-- Claim C10: right after `build` the running flag is true while the
audio button reads `"Start Audio"` (no leading space); the first press of
the toggle compares against `" Start Audio"` (leading space), misses, and
therefore takes the stop branch: the flag becomes false and the label
becomes `" Start Audio"`. -/
theorem initial_toggle_stops_audio :
    build (fun _ => true) readySt = PyResult.ok liveSt ∧
    liveSt.running = true ∧
    liveSt.audioBtnText = some "Start Audio" ∧
    toggle_audio liveSt =
      PyResult.ok { liveSt with running := false, audioBtnText := some " Start Audio" } := by
  decide

end DeafHelper
